import Mathlib

/-!
# Verification of the pyActigraphy AWD decoder

Shallow embedding of `pyActigraphy/io/awd/awd.py` (`RawAWD.__init__` and its
static helpers) and proofs about its decoding behaviour.

Modelling conventions:
* a file is a `List String` of its lines, each line keeping its trailing
  newline character, as Python's file-line iteration produces them;
* timestamps and durations are integers (seconds); the pandas offset strings
  of `frequency_code` are replaced by their value in seconds;
* fallible steps return `Except DecodeError _`; the Python exceptions
  `StopIteration` (header longer than the file), `ValueError` from `int(...)`
  and from the frequency check, `IndexError` and `KeyError` are mapped to the
  constructors of `DecodeError`;
* `pd.to_datetime` and `int(...)` are external-library calls; they are
  modelled by `parseDatetime` and `pyInt` on the input shapes the decoder
  feeds them (see their doc comments).
-/

namespace RawAWD

/-- Errors a decode can raise, matching the Python exceptions:
`parseError` for `ValueError` from `int(...)` or an unparsable date-time
(`pd.to_datetime`); `configurationError` for the explicit `ValueError` raised
when no acquisition frequency is available; `headerError` for the
`StopIteration` when the file has fewer lines than `header_size`;
`indexError` for `IndexError` on `index_data.index[-1]` of an empty series. -/
inductive DecodeError where
  | parseError
  | configurationError
  | headerError
  | indexError
deriving DecidableEq, Repr

/-- Whitespace stripping on both ends of a character list; the model of
Python's `str.strip()` (and of the stripping `int(...)` performs). -/
def pyStripChars (l : List Char) : List Char :=
  ((l.dropWhile Char.isWhitespace).reverse.dropWhile Char.isWhitespace).reverse

/-- `str.replace('\n', '')`: every newline character removed. -/
def stripNewlines (s : String) : String :=
  String.mk (s.toList.filter (fun c => c ≠ '\n'))

/-- Model of Python `int(s)` on a string: surrounding whitespace is stripped,
then an optional sign followed by a non-empty run of decimal digits.
(Python additionally accepts underscores between digit groups and non-ASCII
digits; the decoder never feeds it such tokens.) -/
def pyInt (s : String) : Option Int :=
  let t := pyStripChars s.toList
  let (sign, digits) :=
    match t with
    | '-' :: rest => ((-1 : Int), rest)
    | '+' :: rest => ((1 : Int), rest)
    | _ => ((1 : Int), t)
  if digits ≠ [] ∧ digits.all Char.isDigit then
    some (sign * (digits.foldl (fun acc c => 10 * acc + (c.toNat - 48 : Int)) 0))
  else
    none

/-- One data line: `int(line.split(' ')[0])`.  `line.split(' ')[0]` is the
longest initial segment of the line free of space characters (U+0020). -/
def parseDataLine (line : String) : Option Int :=
  pyInt (String.mk (line.toList.takeWhile (fun c => c ≠ ' ')))

/-- The data-loading comprehension `[int(line.split(' ')[0]) for line in f]`:
every line must yield an integer, in file order; the first failure aborts. -/
def parseData : List String → Option (List Int)
  | [] => some []
  | line :: rest =>
    match parseDataLine line, parseData rest with
    | some v, some vs => some (v :: vs)
    | _, _ => none

/-- `frequency_code`: the static table mapping a header frequency code to the
sampling period, in seconds (`'1' ↦ '15s'`, …, `'C2' ↦ '10s'`). -/
def frequency_code : List (String × Int) :=
  [("1", 15), ("2", 30), ("4", 60), ("8", 120),
   ("20", 300), ("81", 2), ("C1", 5), ("C2", 10)]

/-- `device_code`: the static table mapping a device-code letter to the
human-readable Actiwatch model name. -/
def device_code : List (Char × String) :=
  [('D', "Actiwatch-7"),
   ('I', "Actiwatch-Insomnia (pressure sens.)"),
   ('L', "Actiwatch-L (amb. light)"),
   ('M', "Actiwatch-Mini"),
   ('P', "Actiwatch-L-Plus (amb. light)"),
   ('S', "Actiwatch-S (env. sound)"),
   ('T', "Actiwatch-T (temp.)"),
   ('V', "Actiwatch-4")]

/-- `__extract_awd_name`: header line 0 with newline characters removed. -/
def extract_awd_name (header : List String) : String :=
  stripNewlines (header.getD 0 "")

/-- `__extract_awd_frequency`: header line 3, newline characters removed and
whitespace stripped, looked up in `frequency_code`; `none` when absent. -/
def extract_awd_frequency (header : List String) : Option Int :=
  frequency_code.lookup (String.mk (pyStripChars (stripNewlines (header.getD 3 "")).toList))

/-- `__extract_awd_uuid`: header line 5 with newline characters removed. -/
def extract_awd_uuid (header : List String) : String :=
  stripNewlines (header.getD 5 "")

/-- Whitespace tokenizer (the effect of `s.split() `in Python or of
splitting on whitespace and dropping empty pieces): maximal runs of
non-whitespace characters, in order.  `acc` holds the current token,
reversed. -/
def splitTokens : List Char → List Char → List (List Char)
  | [], acc => if acc = [] then [] else [acc.reverse]
  | c :: rest, acc =>
    if c.isWhitespace then
      if acc = [] then splitTokens rest []
      else acc.reverse :: splitTokens rest []
    else splitTokens rest (c :: acc)

/-- Helper for `parseDatetime`: a date token `YYYY-MM-DD` (all digits, month
in 1..12, day in 1..31). -/
def parseDate (s : List Char) : Option (Nat × Nat × Nat) :=
  match s with
  | [y1, y2, y3, y4, '-', m1, m2, '-', d1, d2] =>
    if ([y1, y2, y3, y4, m1, m2, d1, d2].all Char.isDigit) then
      let y := 1000 * (y1.toNat - 48) + 100 * (y2.toNat - 48) + 10 * (y3.toNat - 48) + (y4.toNat - 48)
      let mo := 10 * (m1.toNat - 48) + (m2.toNat - 48)
      let da := 10 * (d1.toNat - 48) + (d2.toNat - 48)
      if 1 ≤ mo ∧ mo ≤ 12 ∧ 1 ≤ da ∧ da ≤ 31 then some (y, mo, da) else none
    else none
  | _ => none

/-- Helper for `parseDatetime`: a time token `HH:MM:SS` (all digits, hour
below 24, minute and second below 60). -/
def parseTime (s : List Char) : Option (Nat × Nat × Nat) :=
  match s with
  | [h1, h2, ':', m1, m2, ':', s1, s2] =>
    if ([h1, h2, m1, m2, s1, s2].all Char.isDigit) then
      let h := 10 * (h1.toNat - 48) + (h2.toNat - 48)
      let mi := 10 * (m1.toNat - 48) + (m2.toNat - 48)
      let se := 10 * (s1.toNat - 48) + (s2.toNat - 48)
      if h ≤ 23 ∧ mi ≤ 59 ∧ se ≤ 59 then some (h, mi, se) else none
    else none
  | _ => none

/-- Model of `pd.to_datetime` on the strings the decoder builds
(`header[1] + ' ' + header[2]`, each line keeping its terminator): the
whitespace-separated tokens must be exactly a date `YYYY-MM-DD` followed by a
time `HH:MM:SS`.  The timestamp is the field tuple encoded, order-preservingly
and injectively, into seconds of an idealized uniform calendar; `none` models
the `ParserError` pandas raises on unrecognizable input. -/
def parseDatetime (s : String) : Option Int :=
  match splitTokens s.toList [] with
  | [d, t] =>
    match parseDate d, parseTime t with
    | some (y, mo, da), some (h, mi, se) =>
      some ((((((y * 12 + (mo - 1)) * 31 + (da - 1)) * 24 + h) * 60 + mi) * 60 + se : Nat) : Int)
    | _, _ => none
  | _ => none

/-- `__extract_awd_start_time`: `pd.to_datetime(header[1] + ' ' + header[2])`. -/
def extract_awd_start_time (header : List String) : Option Int :=
  parseDatetime ((header.getD 1 "") ++ " " ++ (header.getD 2 ""))

/-- `__extract_awd_model`: first character of the UUID (assumed non-empty by
the caller's `if uuid:` guard); if alphabetic it is capitalized and, when
unsupported, replaced by the sentinel code `'U'`; a non-alphabetic first
character gives the sentinel code `'X'`.  The warnings are side effects, not
modelled. -/
def extract_awd_model (uuid : String) : Char :=
  let c := uuid.toList.getD 0 ' '
  if c.isAlpha then
    let dcode := c.toUpper
    if (device_code.lookup dcode).isSome then dcode else 'U'
  else 'X'

/-- The fields `RawAWD.__init__` hands to `BeseRaw.__init__`, plus the
private `__device_type` attribute (`none` when never assigned, i.e. when the
UUID is empty). -/
structure Record where
  name : String
  uuid : String
  format : String
  axial_mode : String
  start_time : Int
  period : Int
  frequency : Int
  data : List (Int × Int)
  deviceType : Option Char
deriving DecidableEq, Repr

/-- The `model` property: `RawAWD.device_code[self.__device_type]`.  `none`
models the failure paths: `AttributeError` when `__device_type` was never
assigned, `KeyError` when it holds a sentinel code absent from
`device_code`. -/
def model (r : Record) : Option String :=
  r.deviceType.bind (fun c => device_code.lookup c)

deriving instance DecidableEq for Except

/-- Frequency resolution (`awd.py` lines 99–108): the header value if
resolved, else the caller-supplied fallback, else a configuration error. -/
def resolveFreq : Option Int → Option Int → Option Int
  | some f, _ => some f
  | none, fb => fb

/-- `pd.date_range(start, periods=len(data), freq)` zipped with the data:
the full regularly-spaced series, timestamps `start + i * freq`. -/
def buildSeries (start freq : Int) (data : List Int) : List (Int × Int) :=
  ((List.range data.length).map (fun (i : Nat) => start + (i : Int) * freq)).zip data

/-- Stop time and period (`awd.py` lines 124–129): with an explicit period
the stop is `start_time + period`; otherwise the stop is the last timestamp
of the full series (`IndexError`, modelled as `none`, when the series is
empty) and the period is `stop - start_time`. -/
def stopAndPeriod (startW : Int) (period : Option Int) (full : List (Int × Int)) :
    Option (Int × Int) :=
  match period with
  | some p => some (startW + p, p)
  | none =>
    match full.getLast? with
    | none => none
    | some (t, _) => some (t, t - startW)

/-- `index_data.loc[start_time:stop_time]` on the monotone regular index:
the inclusive label slice, i.e. the entries with timestamp in
`[startW, stop]`. -/
def sliceSeries (startW stop : Int) (full : List (Int × Int)) : List (Int × Int) :=
  full.filter (fun q => startW ≤ q.1 ∧ q.1 ≤ stop)

/-- The whole of `RawAWD.__init__`, on a file given as its list of lines:
read `header_size` header lines (or fail like `next(f)`), parse every
remaining line's leading token as an integer, extract name, frequency, uuid
and start time from the header, resolve the frequency against the fallback,
build the regular series, resolve the window, slice, and assemble the
record.  The order of the failure points follows the source. -/
def decode (lines : List String) (header_size : Nat) (frequency : Option Int)
    (start_time : Option Int) (period : Option Int) : Except DecodeError Record :=
  if lines.length < header_size then .error .headerError
  else if header_size < 6 then .error .indexError
  else
    let header := lines.take header_size
    match parseData (lines.drop header_size) with
    | none => .error .parseError
    | some data =>
      let name := extract_awd_name header
      let freqOpt := extract_awd_frequency header
      let uuid := extract_awd_uuid header
      match extract_awd_start_time header with
      | none => .error .parseError
      | some start =>
        let deviceType := if uuid ≠ "" then some (extract_awd_model uuid) else none
        match resolveFreq freqOpt frequency with
        | none => .error .configurationError
        | some freq =>
          let full := buildSeries start freq data
          let startW := start_time.getD start
          match stopAndPeriod startW period full with
          | none => .error .indexError
          | some (stop, per) =>
            .ok { name := name, uuid := uuid, format := "AWD",
                  axial_mode := "mono-axial", start_time := startW,
                  period := per, frequency := freq,
                  data := sliceSeries startW stop full,
                  deviceType := deviceType }

/-- Spec-side definition, for comparison with the source's `parseDataLine`:
the specification words the data-line contract as "split on the first
whitespace run and parse the first token as an integer", i.e. the token is
the longest initial run of non-whitespace characters. -/
def specParseDataLine (line : String) : Option Int :=
  pyInt (String.mk (line.toList.takeWhile (fun c => ¬ c.isWhitespace)))

/-- A well-formed file: the scenario of spec §8 — default 7-line header,
frequency code `1` (15 s), start 2021-01-01 08:00:00, identifier `D123456`,
four data lines. -/
def scenarioLines : List String :=
  ["Subject1\n", "2021-01-01\n", "08:00:00\n", "1\n", "V12345\n", "D123456\n", "0\n",
   "10 x\n", "20 y\n", "5 z\n", "0 w\n"]

/-- The record `decode` produces for `scenarioLines` with no options
(start timestamp 64956585600 in the idealized-calendar encoding). -/
def scenarioRecord : Record :=
  { name := "Subject1", uuid := "D123456", format := "AWD",
    axial_mode := "mono-axial", start_time := 64956585600, period := 45,
    frequency := 15,
    data := [(64956585600, 10), (64956585615, 20), (64956585630, 5), (64956585645, 0)],
    deviceType := some 'D' }

/-- A well-formed file whose unique identifier starts with a non-alphabetic
character. -/
def uuidNonAlphaLines : List String :=
  ["Subject1\n", "2021-01-01\n", "08:00:00\n", "1\n", "V12345\n", "9xyz\n", "0\n", "10 x\n"]

/-- A well-formed file whose unique identifier starts with a letter absent
from `device_code`. -/
def uuidUnmappedLines : List String :=
  ["Subject1\n", "2021-01-01\n", "08:00:00\n", "1\n", "V12345\n", "z999\n", "0\n", "10 x\n"]

/-- A file whose single data line separates its leading integer from the
rest with a tab instead of a space. -/
def tabLines : List String :=
  ["Subject1\n", "2021-01-01\n", "08:00:00\n", "1\n", "V12345\n", "D123456\n", "0\n", "10\tx\n"]

/-- A file whose frequency-code line (`Z`) is absent from `frequency_code`. -/
def badFreqLines : List String :=
  ["Subject1\n", "2021-01-01\n", "08:00:00\n", "Z\n", "V12345\n", "D123456\n", "0\n", "10 x\n"]

/-- A file whose date line holds no recognizable date (month 13). -/
def badDateLines : List String :=
  ["Subject1\n", "2021-13-01\n", "08:00:00\n", "1\n", "V12345\n", "D123456\n", "0\n", "10 x\n"]

/-- A file whose unique-identifier line is empty but otherwise well-formed. -/
def emptyUuidLines : List String :=
  ["Subject1\n", "2021-01-01\n", "08:00:00\n", "1\n", "V12345\n", "\n", "0\n", "10 x\n"]

/-- A file consisting of a well-formed 7-line header and no data lines. -/
def headerOnlyLines : List String :=
  ["Subject1\n", "2021-01-01\n", "08:00:00\n", "1\n", "V12345\n", "D123456\n", "0\n"]

end RawAWD

namespace RawAWD

/-! ## Basic lemmas about the data loader -/

theorem parseData_eq_none_of_mem {L : List String} {l : String}
    (hl : l ∈ L) (h : parseDataLine l = none) : parseData L = none := by
  induction L with
  | nil => cases hl
  | cons a L ih =>
    rcases List.mem_cons.mp hl with rfl | hl
    · simp [parseData, h]
    · simp only [parseData]
      rw [ih hl]
      cases parseDataLine a <;> rfl

theorem parseData_eq_some {L : List String} {vals : List Int}
    (h : parseData L = some vals) :
    vals = L.map (fun l => (parseDataLine l).getD 0) ∧
      ∀ l ∈ L, (parseDataLine l).isSome := by
  induction L generalizing vals with
  | nil =>
    simp only [parseData, Option.some.injEq] at h
    simp [← h]
  | cons a L ih =>
    simp only [parseData] at h
    cases ha : parseDataLine a with
    | none => rw [ha] at h; exact absurd h (by simp)
    | some v =>
      rw [ha] at h
      cases hL : parseData L with
      | none => rw [hL] at h; exact absurd h (by simp)
      | some vs =>
        rw [hL] at h
        obtain ⟨h1, h2⟩ := ih hL
        simp only [Option.some.injEq] at h
        subst h
        refine ⟨by simp [ha, ← h1], ?_⟩
        intro l hl
        rcases List.mem_cons.mp hl with rfl | hl
        · simp [ha]
        · exact h2 l hl

theorem parseData_eq_some_of_forall {L : List String}
    (h : ∀ l ∈ L, (parseDataLine l).isSome) :
    parseData L = some (L.map (fun l => (parseDataLine l).getD 0)) := by
  induction L with
  | nil => rfl
  | cons a L ih =>
    have ha := h a (List.mem_cons_self a L)
    obtain ⟨v, hv⟩ := Option.isSome_iff_exists.mp ha
    simp only [parseData, hv, ih (fun l hl => h l (List.mem_cons_of_mem a hl)),
      List.map_cons]
    simp [hv]

/-! ## Basic lemmas about the series assembly -/

theorem buildSeries_map_fst (start freq : Int) (data : List Int) :
    (buildSeries start freq data).map Prod.fst
      = (List.range data.length).map (fun (i : Nat) => start + (i : Int) * freq) := by
  apply List.map_fst_zip
  rw [List.length_map, List.length_range]

theorem buildSeries_map_snd (start freq : Int) (data : List Int) :
    (buildSeries start freq data).map Prod.snd = data := by
  apply List.map_snd_zip
  rw [List.length_map, List.length_range]

theorem buildSeries_length (start freq : Int) (data : List Int) :
    (buildSeries start freq data).length = data.length := by
  simp [buildSeries]

theorem range_map_getLast? (f : Nat → Int) (n : Nat) (h : n ≠ 0) :
    ((List.range n).map f).getLast? = some (f (n - 1)) := by
  obtain ⟨m, rfl⟩ := Nat.exists_eq_succ_of_ne_zero h
  rw [List.range_succ, List.map_append]
  simp

theorem buildSeries_mem_fst {start freq : Int} {data : List Int}
    (hfreq : 0 ≤ freq) {q : Int × Int} (hq : q ∈ buildSeries start freq data) :
    start ≤ q.1 ∧ q.1 ≤ start + ((data.length - 1 : Nat) : Int) * freq := by
  have h1 : q.1 ∈ (buildSeries start freq data).map Prod.fst :=
    List.mem_map_of_mem Prod.fst hq
  rw [buildSeries_map_fst] at h1
  obtain ⟨i, hi, hq1⟩ := List.mem_map.mp h1
  rw [List.mem_range] at hi
  rw [← hq1]
  constructor
  · have : (0 : Int) ≤ (i : Int) * freq :=
      mul_nonneg (Int.natCast_nonneg i) hfreq
    omega
  · have hle : (i : Int) ≤ ((data.length - 1 : Nat) : Int) := by
      have : i ≤ data.length - 1 := by omega
      exact_mod_cast this
    have := mul_le_mul_of_nonneg_right hle hfreq
    omega

theorem sliceSeries_eq_self {startW stop : Int} {full : List (Int × Int)}
    (h : ∀ q ∈ full, startW ≤ q.1 ∧ q.1 ≤ stop) :
    sliceSeries startW stop full = full := by
  apply List.filter_eq_self.mpr
  intro a ha
  simpa using h a ha

theorem sliceSeries_eq_nil {startW stop : Int} {full : List (Int × Int)}
    (h : ∀ q ∈ full, q.1 < startW) :
    sliceSeries startW stop full = [] := by
  apply List.filter_eq_nil_iff.mpr
  intro a ha
  have := h a ha
  simp only [Bool.not_eq_true, decide_eq_false_iff_not]
  omega

/-! ## Evaluation lemmas for `decode`: one per outcome of the pipeline -/

theorem decode_eq_ok {lines : List String} {hs : Nat} {fb st p : Option Int}
    (hL : hs ≤ lines.length) (h6 : 6 ≤ hs)
    {data : List Int} (hData : parseData (lines.drop hs) = some data)
    {start : Int} (hStart : extract_awd_start_time (lines.take hs) = some start)
    {freq : Int} (hFreq : resolveFreq (extract_awd_frequency (lines.take hs)) fb = some freq)
    {stop per : Int}
    (hSP : stopAndPeriod (st.getD start) p (buildSeries start freq data) = some (stop, per)) :
    decode lines hs fb st p = Except.ok
      { name := extract_awd_name (lines.take hs),
        uuid := extract_awd_uuid (lines.take hs),
        format := "AWD", axial_mode := "mono-axial",
        start_time := st.getD start, period := per, frequency := freq,
        data := sliceSeries (st.getD start) stop (buildSeries start freq data),
        deviceType := if extract_awd_uuid (lines.take hs) ≠ "" then
          some (extract_awd_model (extract_awd_uuid (lines.take hs))) else none } := by
  have h1 : ¬ (lines.length < hs) := by omega
  have h2 : ¬ (hs < 6) := by omega
  simp only [decode, h1, h2, if_false, hData, hStart, hFreq, hSP]

theorem decode_data_parseError {lines : List String} {hs : Nat} {fb st p : Option Int}
    (hL : hs ≤ lines.length) (h6 : 6 ≤ hs)
    (hData : parseData (lines.drop hs) = none) :
    decode lines hs fb st p = Except.error DecodeError.parseError := by
  have h1 : ¬ (lines.length < hs) := by omega
  have h2 : ¬ (hs < 6) := by omega
  simp only [decode, h1, h2, if_false, hData]

theorem decode_start_parseError {lines : List String} {hs : Nat} {fb st p : Option Int}
    (hL : hs ≤ lines.length) (h6 : 6 ≤ hs)
    {data : List Int} (hData : parseData (lines.drop hs) = some data)
    (hStart : extract_awd_start_time (lines.take hs) = none) :
    decode lines hs fb st p = Except.error DecodeError.parseError := by
  have h1 : ¬ (lines.length < hs) := by omega
  have h2 : ¬ (hs < 6) := by omega
  simp only [decode, h1, h2, if_false, hData, hStart]

theorem decode_configurationError {lines : List String} {hs : Nat} {fb st p : Option Int}
    (hL : hs ≤ lines.length) (h6 : 6 ≤ hs)
    {data : List Int} (hData : parseData (lines.drop hs) = some data)
    {start : Int} (hStart : extract_awd_start_time (lines.take hs) = some start)
    (hFreq : resolveFreq (extract_awd_frequency (lines.take hs)) fb = none) :
    decode lines hs fb st p = Except.error DecodeError.configurationError := by
  have h1 : ¬ (lines.length < hs) := by omega
  have h2 : ¬ (hs < 6) := by omega
  simp only [decode, h1, h2, if_false, hData, hStart, hFreq]

theorem decode_indexError {lines : List String} {hs : Nat} {fb st p : Option Int}
    (hL : hs ≤ lines.length) (h6 : 6 ≤ hs)
    {data : List Int} (hData : parseData (lines.drop hs) = some data)
    {start : Int} (hStart : extract_awd_start_time (lines.take hs) = some start)
    {freq : Int} (hFreq : resolveFreq (extract_awd_frequency (lines.take hs)) fb = some freq)
    (hSP : stopAndPeriod (st.getD start) p (buildSeries start freq data) = none) :
    decode lines hs fb st p = Except.error DecodeError.indexError := by
  have h1 : ¬ (lines.length < hs) := by omega
  have h2 : ¬ (hs < 6) := by omega
  simp only [decode, h1, h2, if_false, hData, hStart, hFreq, hSP]

theorem decode_ne_parseError {lines : List String} {hs : Nat} {fb st p : Option Int}
    (hL : hs ≤ lines.length) (h6 : 6 ≤ hs)
    {data : List Int} (hData : parseData (lines.drop hs) = some data)
    {start : Int} (hStart : extract_awd_start_time (lines.take hs) = some start) :
    decode lines hs fb st p ≠ Except.error DecodeError.parseError := by
  cases hF : resolveFreq (extract_awd_frequency (lines.take hs)) fb with
  | none => rw [decode_configurationError hL h6 hData hStart hF]; simp
  | some freq =>
    cases hSP : stopAndPeriod (st.getD start) p (buildSeries start freq data) with
    | none => rw [decode_indexError hL h6 hData hStart hF hSP]; simp
    | some sp =>
      obtain ⟨stop, per⟩ := sp
      rw [decode_eq_ok hL h6 hData hStart hF hSP]
      simp

end RawAWD

namespace RawAWD

/-! ## Further helper lemmas -/

theorem mem_keys_of_lookup {α β : Type} [BEq α] [LawfulBEq α]
    {l : List (α × β)} {a : α} {v : β}
    (h : l.lookup a = some v) : a ∈ l.map Prod.fst := by
  induction l with
  | nil => simp [List.lookup] at h
  | cons p l ih =>
    obtain ⟨k, w⟩ := p
    simp only [List.lookup] at h
    split at h
    · rename_i hk
      have ha : a = k := eq_of_beq hk
      subst ha
      simp only [List.map_cons]
      exact List.mem_cons_self _ _
    · exact List.mem_cons_of_mem _ (ih h)

theorem range_map_head? (f : Nat → Int) (n : Nat) (h : n ≠ 0) :
    ((List.range n).map f).head? = some (f 0) := by
  obtain ⟨m, rfl⟩ := Nat.exists_eq_succ_of_ne_zero h
  rw [List.range_succ_eq_map]
  simp

theorem range_map_getD (f : Nat → Int) (n i : Nat) (h : i < n) :
    ((List.range n).map f).getD i 0 = f i := by
  rw [List.getD_eq_getElem?_getD, List.getElem?_map, List.getElem?_range h]
  rfl

theorem buildSeries_getLast?_fst {start freq : Int} {data : List Int} (hne : data ≠ []) :
    ∃ v, (buildSeries start freq data).getLast?
      = some (start + ((data.length - 1 : Nat) : Int) * freq, v) := by
  have hlen : (buildSeries start freq data).length = data.length :=
    buildSeries_length start freq data
  have hne' : buildSeries start freq data ≠ [] := by
    intro hnil
    rw [hnil] at hlen
    exact hne (List.length_eq_zero.mp hlen.symm)
  cases hq : (buildSeries start freq data).getLast? with
  | none => exact absurd (List.getLast?_eq_none_iff.mp hq) hne'
  | some q =>
    refine ⟨q.2, ?_⟩
    have h1 : ((buildSeries start freq data).map Prod.fst).getLast? = some q.1 := by
      rw [List.getLast?_map, hq]
      rfl
    rw [buildSeries_map_fst,
      range_map_getLast? _ _ (fun h0 => hne (List.length_eq_zero.mp h0))] at h1
    have h2 : start + ((data.length - 1 : Nat) : Int) * freq = q.1 :=
      Option.some.inj h1
    rw [h2]

theorem stopAndPeriod_no_period {start freq : Int} {data : List Int}
    (hne : data ≠ []) (startW : Int) :
    stopAndPeriod startW none (buildSeries start freq data)
      = some (start + ((data.length - 1 : Nat) : Int) * freq,
              start + ((data.length - 1 : Nat) : Int) * freq - startW) := by
  obtain ⟨v, hv⟩ := @buildSeries_getLast?_fst start freq data hne
  simp [stopAndPeriod, hv]

theorem sliceSeries_covers {start freq S stop : Int} {data : List Int}
    (hfreq : 0 ≤ freq) (hS : S ≤ start)
    (hstop : start + ((data.length - 1 : Nat) : Int) * freq ≤ stop) :
    sliceSeries S stop (buildSeries start freq data) = buildSeries start freq data := by
  apply sliceSeries_eq_self
  intro q hq
  obtain ⟨h1, h2⟩ := buildSeries_mem_fst hfreq hq
  omega

theorem sliceSeries_after_end {start freq S stop : Int} {data : List Int}
    (hfreq : 0 ≤ freq) (hS : start + ((data.length - 1 : Nat) : Int) * freq < S) :
    sliceSeries S stop (buildSeries start freq data) = [] := by
  apply sliceSeries_eq_nil
  intro q hq
  have h2 := (buildSeries_mem_fst hfreq hq).2
  omega

theorem decode_ok_uuid_deviceType {lines : List String} {hs : Nat}
    {fb st p : Option Int} {r : Record}
    (h : decode lines hs fb st p = Except.ok r) :
    r.uuid = extract_awd_uuid (lines.take hs) ∧
    r.deviceType = (if r.uuid ≠ "" then some (extract_awd_model r.uuid) else none) := by
  simp only [decode] at h
  repeat' split at h
  any_goals exact Except.noConfusion h
  all_goals injection h with h
  all_goals subst h
  all_goals constructor <;> simp_all

end RawAWD

namespace RawAWD

/-! ## The claims -/

/-- Claim C3 (confirmed): when the header frequency code is absent from the
table, decoding with no fallback fails with the configuration error (and
returns no record), while decoding with a fallback `f` proceeds and records
`f` as the sampling period.  The input is otherwise well-formed: its data
lines and start timestamp parse, and (for the fallback half) the window
resolution succeeds. -/
theorem awd_c3 {lines : List String} {hs : Nat} {st p : Option Int}
    (hL : hs ≤ lines.length) (h6 : 6 ≤ hs)
    {data : List Int} (hData : parseData (lines.drop hs) = some data)
    {start : Int} (hStart : extract_awd_start_time (lines.take hs) = some start)
    (hFreq : extract_awd_frequency (lines.take hs) = none) :
    decode lines hs none st p = Except.error DecodeError.configurationError ∧
    (∀ f stop per : Int,
      stopAndPeriod (st.getD start) p (buildSeries start f data) = some (stop, per) →
      ∃ r, decode lines hs (some f) st p = Except.ok r ∧ r.frequency = f) := by
  constructor
  · apply decode_configurationError hL h6 hData hStart
    rw [hFreq]
    rfl
  · intro f stop per hSP
    refine ⟨_, decode_eq_ok hL h6 hData hStart ?_ hSP, rfl⟩
    rw [hFreq]
    rfl

/-- Witness for C3: the file `badFreqLines` (frequency code `Z`) fails with
the configuration error when no fallback is given and decodes with sampling
period 15 when 15 is supplied as fallback. -/
theorem awd_c3_witness :
    decode badFreqLines 7 none none none = Except.error DecodeError.configurationError ∧
    (∃ r, decode badFreqLines 7 (some 15) none none = Except.ok r ∧ r.frequency = 15) := by
  have h := @awd_c3 badFreqLines 7 none none (by decide) (by decide) [10] (by decide)
    64956585600 (by decide) (by decide)
  exact ⟨h.1, h.2 15 64956585600 0 (by decide)⟩

/-- Claim C7 (confirmed): frequency-code resolution is the pure lookup of
the trimmed header code in `frequency_code`: the extractor is exactly that
lookup, identical trimmed codes resolve identically, the codes `1`, `81`
and `C2` map to 15 s, 2 s and 10 s, and any code outside the table resolves
to `none` (no exception — the extractor is total). -/
theorem awd_c7 :
    (∀ header : List String, extract_awd_frequency header
        = frequency_code.lookup
            (String.mk (pyStripChars (stripNewlines (header.getD 3 "")).toList))) ∧
    (∀ g1 g2 : List String,
        String.mk (pyStripChars (stripNewlines (g1.getD 3 "")).toList)
          = String.mk (pyStripChars (stripNewlines (g2.getD 3 "")).toList) →
        extract_awd_frequency g1 = extract_awd_frequency g2) ∧
    frequency_code.lookup "1" = some 15 ∧
    frequency_code.lookup "81" = some 2 ∧
    frequency_code.lookup "C2" = some 10 ∧
    (∀ code : String, code ∉ frequency_code.map Prod.fst →
        frequency_code.lookup code = none) := by
  refine ⟨fun _ => rfl, ?_, by decide, by decide, by decide, ?_⟩
  · intro g1 g2 he
    unfold extract_awd_frequency
    rw [he]
  · intro code hmem
    cases hcl : frequency_code.lookup code with
    | none => rfl
    | some v => exact absurd (mem_keys_of_lookup hcl) hmem

/-- Witness for C7: two headers whose third lines trim to the same code `1`
resolve to the same period, and the unmapped code `7` resolves to `none`. -/
theorem awd_c7_witness :
    extract_awd_frequency ["a\n", "b\n", "c\n", " 1 \n", "e\n", "f\n", "g\n"]
      = extract_awd_frequency ["p\n", "q\n", "r\n", "1\n", "s\n", "t\n", "u\n"] ∧
    frequency_code.lookup "7" = none :=
  ⟨awd_c7.2.1 _ _ (by decide), awd_c7.2.2.2.2.2 "7" (by decide)⟩

/-- Claim C8 (confirmed): for any file whose data lines parse, the start
timestamp is the parse of header line 1 concatenated with a space and
header line 2, and decoding fails with the parse error exactly when that
concatenation is not a recognizable date-time. -/
theorem awd_c8 {lines : List String} {hs : Nat} {fb st p : Option Int}
    (hL : hs ≤ lines.length) (h6 : 6 ≤ hs)
    {data : List Int} (hData : parseData (lines.drop hs) = some data) :
    extract_awd_start_time (lines.take hs)
      = parseDatetime ((lines.take hs).getD 1 "" ++ " " ++ (lines.take hs).getD 2 "") ∧
    (decode lines hs fb st p = Except.error DecodeError.parseError ↔
      parseDatetime ((lines.take hs).getD 1 "" ++ " " ++ (lines.take hs).getD 2 "") = none) := by
  refine ⟨rfl, ?_, ?_⟩
  · intro h
    by_contra hne
    obtain ⟨t, ht⟩ := Option.ne_none_iff_exists'.mp hne
    exact decode_ne_parseError hL h6 hData ht h
  · intro h
    exact decode_start_parseError hL h6 hData h

/-- Witness for C8: the file `badDateLines`, whose date line holds month 13,
fails with the parse error. -/
theorem awd_c8_witness :
    decode badDateLines 7 none none none = Except.error DecodeError.parseError :=
  (@awd_c8 badDateLines 7 none none none (by decide) (by decide) [10]
    (by decide)).2.mpr (by decide)

/-- Claim C9 (confirmed): an otherwise well-formed input whose header line 5
is empty after stripping line terminators decodes successfully, but the
device type is never recorded and the `model` accessor fails on the
resulting record. -/
theorem awd_c9 {lines : List String} {hs : Nat} {fb st p : Option Int}
    (hL : hs ≤ lines.length) (h6 : 6 ≤ hs)
    {data : List Int} (hData : parseData (lines.drop hs) = some data)
    {start : Int} (hStart : extract_awd_start_time (lines.take hs) = some start)
    {freq : Int} (hFreq : resolveFreq (extract_awd_frequency (lines.take hs)) fb = some freq)
    {stop per : Int}
    (hSP : stopAndPeriod (st.getD start) p (buildSeries start freq data) = some (stop, per))
    (hUuid : extract_awd_uuid (lines.take hs) = "") :
    ∃ r, decode lines hs fb st p = Except.ok r ∧ r.deviceType = none ∧ model r = none := by
  refine ⟨_, decode_eq_ok hL h6 hData hStart hFreq hSP, ?_, ?_⟩
  · simp [hUuid]
  · simp [model, hUuid]

/-- Witness for C9: the file `emptyUuidLines` decodes to a record whose
device type is unset and on which `model` fails. -/
theorem awd_c9_witness :
    ∃ r, decode emptyUuidLines 7 none none none = Except.ok r ∧
      r.deviceType = none ∧ model r = none :=
  @awd_c9 emptyUuidLines 7 none none none (by decide) (by decide) [10] (by decide)
    64956585600 (by decide) 15 (by decide) 64956585600 0 (by decide) (by decide)

/-- Claim C10 (confirmed): a file with a well-formed header (resolvable
start time and frequency) and zero data lines, decoded without a `period`
option, fails with the indexing error raised when the last timestamp of the
empty series is taken, instead of returning a record with an empty
series. -/
theorem awd_c10 {lines : List String} {hs : Nat} {fb st : Option Int}
    (h6 : 6 ≤ hs) (hEq : lines.length = hs)
    {start : Int} (hStart : extract_awd_start_time (lines.take hs) = some start)
    {freq : Int} (hFreq : resolveFreq (extract_awd_frequency (lines.take hs)) fb = some freq) :
    decode lines hs fb st none = Except.error DecodeError.indexError := by
  have hdrop : lines.drop hs = [] := List.drop_eq_nil_of_le (by omega)
  have hData : parseData (lines.drop hs) = some [] := by rw [hdrop]; rfl
  apply decode_indexError (by omega) h6 hData hStart hFreq
  rfl

/-- Witness for C10: the header-only file fails with the indexing error. -/
theorem awd_c10_witness :
    decode headerOnlyLines 7 none none none = Except.error DecodeError.indexError :=
  @awd_c10 headerOnlyLines 7 none none (by decide) (by decide)
    64956585600 (by decide) 15 (by decide)

end RawAWD

namespace RawAWD

/-- Claim C4 (confirmed): for a well-formed input decoded with no window
options, the series has one sample per data line, in file order; its
timestamps start at the header-derived start time, are strictly increasing
with constant spacing equal to the resolved sampling period, and end at
`start + (count - 1) * period`. -/
theorem awd_c4 {lines : List String} {hs : Nat} {fb : Option Int}
    (hL : hs ≤ lines.length) (h6 : 6 ≤ hs)
    {data : List Int} (hData : parseData (lines.drop hs) = some data)
    {start : Int} (hStart : extract_awd_start_time (lines.take hs) = some start)
    {freq : Int} (hFreq : resolveFreq (extract_awd_frequency (lines.take hs)) fb = some freq)
    (hfreq : 0 < freq) (hne : data ≠ []) :
    ∃ r, decode lines hs fb none none = Except.ok r ∧
      r.data.length = (lines.drop hs).length ∧
      r.data.map Prod.snd = data ∧
      (r.data.map Prod.fst).head? = some start ∧
      (r.data.map Prod.fst).getLast?
        = some (start + ((data.length - 1 : Nat) : Int) * freq) ∧
      (∀ i : Nat, i + 1 < r.data.length →
        (r.data.map Prod.fst).getD (i + 1) 0 = (r.data.map Prod.fst).getD i 0 + freq ∧
        (r.data.map Prod.fst).getD i 0 < (r.data.map Prod.fst).getD (i + 1) 0) := by
  have hn0 : data.length ≠ 0 := fun h0 => hne (List.length_eq_zero.mp h0)
  have hSP := @stopAndPeriod_no_period start freq data hne start
  have hfull : sliceSeries start (start + ((data.length - 1 : Nat) : Int) * freq)
      (buildSeries start freq data) = buildSeries start freq data :=
    sliceSeries_covers (le_of_lt hfreq) le_rfl le_rfl
  refine ⟨_, decode_eq_ok hL h6 hData hStart hFreq hSP, ?_, ?_, ?_, ?_, ?_⟩
  · show (sliceSeries start (start + ((data.length - 1 : Nat) : Int) * freq)
        (buildSeries start freq data)).length = (lines.drop hs).length
    rw [hfull, buildSeries_length, (parseData_eq_some hData).1, List.length_map]
  · show (sliceSeries start (start + ((data.length - 1 : Nat) : Int) * freq)
        (buildSeries start freq data)).map Prod.snd = data
    rw [hfull, buildSeries_map_snd]
  · show ((sliceSeries start (start + ((data.length - 1 : Nat) : Int) * freq)
        (buildSeries start freq data)).map Prod.fst).head? = some start
    rw [hfull, buildSeries_map_fst, range_map_head? _ _ hn0]
    simp
  · show ((sliceSeries start (start + ((data.length - 1 : Nat) : Int) * freq)
        (buildSeries start freq data)).map Prod.fst).getLast?
        = some (start + ((data.length - 1 : Nat) : Int) * freq)
    rw [hfull, buildSeries_map_fst, range_map_getLast? _ _ hn0]
  · simp only [Option.getD_none, hfull, buildSeries_length, buildSeries_map_fst]
    intro i hi
    rw [range_map_getD _ _ _ hi, range_map_getD _ _ _ (by omega)]
    have e : ((i + 1 : Nat) : Int) * freq = (i : Int) * freq + freq := by
      push_cast
      ring
    constructor
    · linarith [e]
    · linarith [e, hfreq]

/-- Witness for C4: the scenario file decodes to a record with 4 samples,
values `[10, 20, 5, 0]`, first timestamp 64956585600 and last timestamp
64956585645 (= start + 3 * 15). -/
theorem awd_c4_witness :
    ∃ r, decode scenarioLines 7 none none none = Except.ok r ∧
      r.data.length = 4 ∧ r.data.map Prod.snd = [10, 20, 5, 0] ∧
      (r.data.map Prod.fst).head? = some 64956585600 ∧
      (r.data.map Prod.fst).getLast? = some 64956585645 := by
  obtain ⟨r, h0, h1, h2, h3, h4, h5⟩ :=
    @awd_c4 scenarioLines 7 none (by decide) (by decide) [10, 20, 5, 0] (by decide)
      64956585600 (by decide) 15 (by decide) (by decide) (by decide)
  refine ⟨r, h0, ?_, h2, h3, ?_⟩
  · rw [h1]
    rfl
  · rw [h4]
    rfl

/-- Claim C5 (confirmed): decoding with a window start `S` and window
length `P` yields exactly the inclusive slice `[S, S + P]` of the series
obtained by decoding the same input with no window options (which is the
full regular series built from the header start time). -/
theorem awd_c5 {lines : List String} {hs : Nat} {fb : Option Int} (S P : Int)
    (hL : hs ≤ lines.length) (h6 : 6 ≤ hs)
    {data : List Int} (hData : parseData (lines.drop hs) = some data)
    {start : Int} (hStart : extract_awd_start_time (lines.take hs) = some start)
    {freq : Int} (hFreq : resolveFreq (extract_awd_frequency (lines.take hs)) fb = some freq)
    (hfreq : 0 ≤ freq) (hne : data ≠ []) :
    ∃ r r', decode lines hs fb none none = Except.ok r ∧
      decode lines hs fb (some S) (some P) = Except.ok r' ∧
      r'.data = sliceSeries S (S + P) r.data := by
  have hSP := @stopAndPeriod_no_period start freq data hne start
  have hSP' : stopAndPeriod ((some S).getD start) (some P) (buildSeries start freq data)
      = some (S + P, P) := rfl
  refine ⟨_, _, decode_eq_ok hL h6 hData hStart hFreq hSP,
    decode_eq_ok hL h6 hData hStart hFreq hSP', ?_⟩
  show sliceSeries S (S + P) (buildSeries start freq data)
      = sliceSeries S (S + P) (sliceSeries start
          (start + ((data.length - 1 : Nat) : Int) * freq) (buildSeries start freq data))
  rw [sliceSeries_covers hfreq le_rfl le_rfl]

/-- Witness for C5: on the scenario file, decoding with window start
64956585615 and length 15 equals the slice `[64956585615, 64956585630]` of
the unwindowed series. -/
theorem awd_c5_witness :
    ∃ r r', decode scenarioLines 7 none none none = Except.ok r ∧
      decode scenarioLines 7 none (some 64956585615) (some 15) = Except.ok r' ∧
      r'.data = sliceSeries 64956585615 (64956585615 + 15) r.data :=
  @awd_c5 scenarioLines 7 none 64956585615 15 (by decide) (by decide)
    [10, 20, 5, 0] (by decide) 64956585600 (by decide) 15 (by decide) (by decide)
    (by decide)

/-- C6 counterexample: the claim says a window start outside the range of
the full series yields an empty series; but the window start 0, which lies
before the first timestamp 64956585600 of `scenarioLines`' series (and so
outside its range), yields the full 4-sample series, not an empty one. -/
theorem awd_c6_counterexample :
    (decode scenarioLines 7 none (some 0) none).map (fun r => r.data)
      = Except.ok [(64956585600, 10), (64956585615, 20), (64956585630, 5), (64956585645, 0)] ∧
    ((0 : Int) < 64956585600) :=
  ⟨by decide, by decide⟩

/-- Claim C6 (corrected): a caller-supplied window start strictly after the
last timestamp yields a record with an empty series and no error; a window
start at or before the first timestamp also raises no error but keeps the
whole series (it does not yield an empty one) — emptiness holds only past
the end, not whenever the start is outside the series range. -/
theorem awd_c6_amended {lines : List String} {hs : Nat} {fb : Option Int} (S : Int)
    (hL : hs ≤ lines.length) (h6 : 6 ≤ hs)
    {data : List Int} (hData : parseData (lines.drop hs) = some data)
    {start : Int} (hStart : extract_awd_start_time (lines.take hs) = some start)
    {freq : Int} (hFreq : resolveFreq (extract_awd_frequency (lines.take hs)) fb = some freq)
    (hfreq : 0 ≤ freq) (hne : data ≠ []) :
    (start + ((data.length - 1 : Nat) : Int) * freq < S →
      ∃ r, decode lines hs fb (some S) none = Except.ok r ∧ r.data = []) ∧
    (S ≤ start →
      ∃ r, decode lines hs fb (some S) none = Except.ok r ∧
        r.data.map Prod.snd = data ∧ r.data.length = data.length) := by
  have hSP := @stopAndPeriod_no_period start freq data hne S
  constructor
  · intro hS
    refine ⟨_, decode_eq_ok hL h6 hData hStart hFreq hSP, ?_⟩
    show sliceSeries S (start + ((data.length - 1 : Nat) : Int) * freq)
        (buildSeries start freq data) = []
    exact sliceSeries_after_end hfreq hS
  · intro hS
    refine ⟨_, decode_eq_ok hL h6 hData hStart hFreq hSP, ?_, ?_⟩
    · show (sliceSeries S (start + ((data.length - 1 : Nat) : Int) * freq)
          (buildSeries start freq data)).map Prod.snd = data
      rw [sliceSeries_covers hfreq hS le_rfl, buildSeries_map_snd]
    · show (sliceSeries S (start + ((data.length - 1 : Nat) : Int) * freq)
          (buildSeries start freq data)).length = data.length
      rw [sliceSeries_covers hfreq hS le_rfl, buildSeries_length]

/-- Witness for the amended C6: on the scenario file, window start
64956585646 (past the last timestamp 64956585645) gives an empty series
without error, and window start 0 (before the first timestamp) gives the
whole 4-sample series without error. -/
theorem awd_c6_amended_witness :
    (∃ r, decode scenarioLines 7 none (some 64956585646) none = Except.ok r ∧
      r.data = []) ∧
    (∃ r, decode scenarioLines 7 none (some 0) none = Except.ok r ∧
      r.data.map Prod.snd = [10, 20, 5, 0] ∧ r.data.length = 4) :=
  ⟨(@awd_c6_amended scenarioLines 7 none 64956585646 (by decide) (by decide)
      [10, 20, 5, 0] (by decide) 64956585600 (by decide) 15 (by decide) (by decide)
      (by decide)).1 (by decide),
   (@awd_c6_amended scenarioLines 7 none 0 (by decide) (by decide)
      [10, 20, 5, 0] (by decide) 64956585600 (by decide) 15 (by decide) (by decide)
      (by decide)).2 (by decide)⟩

end RawAWD

namespace RawAWD

/-- C1 counterexample: the claim says the `model` accessor returns the
"undetermined" sentinel for identifier `9xyz` and the "unsupported"
sentinel for `z999`; in fact the sentinel codes `'X'` and `'U'` are stored
as the device type but are absent from `device_code`, so the accessor's
lookup fails (`KeyError`) and `model` returns no value at all. -/
theorem awd_c1_counterexample :
    (decode uuidNonAlphaLines 7 none none none).map (fun r => (r.deviceType, model r))
      = Except.ok (some 'X', none) ∧
    (decode uuidUnmappedLines 7 none none none).map (fun r => (r.deviceType, model r))
      = Except.ok (some 'U', none) :=
  ⟨by decide, by decide⟩

/-- Claim C1 (corrected): for every decoded record with a non-empty
identifier, a mapped (case-normalized) alphabetic first character makes
`model` return that model name; a non-alphabetic first character stores the
sentinel code `'X'` and an unmapped alphabetic one the sentinel code `'U'`
as the device type, and in both cases the `model` accessor's table lookup
fails (`KeyError`) instead of returning a sentinel string. -/
theorem awd_c1_amended {lines : List String} {hs : Nat} {fb st p : Option Int}
    {r : Record}
    (hdec : decode lines hs fb st p = Except.ok r) (hne : r.uuid ≠ "") :
    (∀ m : String, (r.uuid.toList.getD 0 ' ').isAlpha = true →
        device_code.lookup (r.uuid.toList.getD 0 ' ').toUpper = some m →
        model r = some m) ∧
    ((r.uuid.toList.getD 0 ' ').isAlpha = false →
        r.deviceType = some 'X' ∧ model r = none) ∧
    ((r.uuid.toList.getD 0 ' ').isAlpha = true →
        device_code.lookup (r.uuid.toList.getD 0 ' ').toUpper = none →
        r.deviceType = some 'U' ∧ model r = none) := by
  obtain ⟨hu, hdt⟩ := decode_ok_uuid_deviceType hdec
  rw [if_pos hne] at hdt
  simp only [extract_awd_model] at hdt
  refine ⟨?_, ?_, ?_⟩
  · intro m halpha hlook
    rw [halpha, if_pos rfl, hlook, Option.isSome_some, if_pos rfl] at hdt
    unfold model
    rw [hdt]
    exact hlook
  · intro halpha
    rw [halpha, if_neg (by simp)] at hdt
    refine ⟨hdt, ?_⟩
    unfold model
    rw [hdt]
    decide
  · intro halpha hlook
    rw [halpha, if_pos rfl, hlook, Option.isSome_none, if_neg (by simp)] at hdt
    refine ⟨hdt, ?_⟩
    unfold model
    rw [hdt]
    decide

/-- Witness for the amended C1: the scenario record (identifier `D123456`)
has model name `Actiwatch-7`. -/
theorem awd_c1_amended_witness : model scenarioRecord = some "Actiwatch-7" :=
  (awd_c1_amended
    (by decide : decode scenarioLines 7 none none none = Except.ok scenarioRecord)
    (by decide)).1 "Actiwatch-7" (by decide) (by decide)

/-- C2 counterexample: the claim says each data line is split on the first
whitespace run, so the line with a tab after `10` would parse to the sample
10; the source splits on space characters only, so on that line `int(...)`
receives the whole line and decoding fails with the parse error. -/
theorem awd_c2_counterexample :
    decode tabLines 7 none none none = Except.error DecodeError.parseError ∧
    specParseDataLine "10\tx\n" = some 10 :=
  ⟨by decide, by decide⟩

/-- Claim C2 (corrected): each data line is split at space characters
(U+0020) — not at arbitrary whitespace — and its first segment is parsed as
an integer; if any line's first segment fails to parse, decoding fails with
the parse error (no line is skipped), and otherwise the parsed sequence is
exactly the leading integer of each data line in file order. -/
theorem awd_c2_amended (lines : List String) (hs : Nat) (fb st p : Option Int)
    (hL : hs ≤ lines.length) (h6 : 6 ≤ hs) :
    ((∃ l ∈ lines.drop hs, parseDataLine l = none) →
      decode lines hs fb st p = Except.error DecodeError.parseError) ∧
    (∀ vals : List Int, parseData (lines.drop hs) = some vals →
      vals = (lines.drop hs).map (fun l => (parseDataLine l).getD 0) ∧
      ∀ l ∈ lines.drop hs, (parseDataLine l).isSome = true) := by
  constructor
  · rintro ⟨l, hl, hnone⟩
    exact decode_data_parseError hL h6 (parseData_eq_none_of_mem hl hnone)
  · intro vals h
    have h2 := parseData_eq_some h
    exact ⟨h2.1, fun l hl => h2.2 l hl⟩

/-- Witness for the amended C2: the scenario file's four data lines parse,
in order, to `[10, 20, 5, 0]`, the leading integer of each line. -/
theorem awd_c2_amended_witness :
    ([10, 20, 5, 0] : List Int)
      = (scenarioLines.drop 7).map (fun l => (parseDataLine l).getD 0) :=
  ((awd_c2_amended scenarioLines 7 none none none (by decide) (by decide)).2
    [10, 20, 5, 0] (by decide)).1

end RawAWD
